import Mathlib

/-!
Shallow embedding of `src/apps/app_playbg.c` (Asterisk-PlayBackground).

The module keeps one `playbg_state` per channel in a keyed datastore slot,
produces audio frames from an ordered list of named resources
(`playbg_seek` / `playbg_readframe`), drains a sample quota in
`playbg_generator`, and exposes start / stop / resume lifecycle operations.

External collaborators (the Asterisk host) are modelled at their interface
boundary: a filesystem mapping resource names to frame lists, a stream handle
with open / read / seek / close, frame delivery that can fail, and generator
(de)activation dispatching to the module's alloc / release hooks.  Frames are
identified with their sample counts (`Nat`); C `int` counters that can go
negative (`sample_queue`) are `Int`, counters that stay non-negative on every
path (`pos`, `samples`) are `Nat`; overflow is not modelled.
-/

namespace PlayBG

/-- A decoded audio file: the ordered list of its frames' sample counts. -/
abbrev FileContent := List Nat

/-- Frames of a file that remain after seeking to sample offset `n`
(frames wholly before the offset are dropped; the collaborator's seek is
frame-boundary aligned everywhere this module uses it). -/
def framesFrom : FileContent → Nat → FileContent
  | fs, 0 => fs
  | [], _ + 1 => []
  | f :: fs, n + 1 => if f ≤ n + 1 then framesFrom fs (n + 1 - f) else f :: fs

/-- An open audio stream: the resource's name, its full content, and the
frames not yet consumed. -/
structure Stream where
  name : String
  content : FileContent
  remaining : FileContent
deriving DecidableEq, Repr

/-- Host collaborator: read one frame from an open stream
(`ast_readframe`). -/
def ast_readframe (s : Stream) : Option Nat × Stream :=
  match s.remaining with
  | [] => (none, s)
  | f :: rest => (some f, { s with remaining := rest })

/-- Host collaborator: absolute seek to a sample offset
(`ast_seekstream` with `SEEK_SET`). -/
def ast_seekstream (s : Stream) (off : Nat) : Stream :=
  { s with remaining := framesFrom s.content off }

/-- `struct playbg_state` of the C module. -/
structure PlaybgState where
  filearray : List (Option String)
  pos : Nat
  nfiles : Nat
  origwfmt : Int
  samples : Nat
  sample_queue : Int
deriving DecidableEq, Repr

/-- The channel fields the module touches: the open background stream, the
write format, the `"playbg"` datastore slot (`some none` models a datastore
whose `data` pointer is NULL), and whether a generator is active. -/
structure Channel where
  stream : Option Stream
  writeformat : Int
  datastore : Option (Option PlaybgState)
  generatorActive : Bool
deriving DecidableEq, Repr

/-- Observable collaborator calls, recorded for the theorems: a resource
open attempt (at which list index, with which recorded sample offset, which
name, and whether it succeeded), an explicit stream seek, and a frame
delivered to the channel. -/
inductive Event where
  | openEv (idx : Nat) (offAtOpen : Nat) (name : String) (ok : Bool)
  | seekEv (off : Nat)
  | writeEv (idx : Nat) (samples : Nat) (ok : Bool)
deriving DecidableEq, Repr

/-- The whole system state: the filesystem (name ↦ content), whether frame
delivery to the channel fails (`ast_write`), the channel, and the event
trace. -/
structure World where
  fs : List (String × FileContent)
  writeFails : Bool
  chan : Channel
  events : List Event
deriving DecidableEq, Repr

/-- The `playbg_state` attached to the channel, when present and valid. -/
def World.getState (w : World) : Option PlaybgState :=
  match w.chan.datastore with
  | some (some st) => some st
  | _ => none

/-- Write the attached `playbg_state` back through the datastore (C mutates
it in place through the datastore's `data` pointer). -/
def World.setState (w : World) (st : PlaybgState) : World :=
  { w with chan := { w.chan with datastore := some (some st) } }

/-- Append an observable event to the trace. -/
def World.log (w : World) (e : Event) : World :=
  { w with events := w.events ++ [e] }

/-- `playbg_release` (lines 108-142): if the datastore or its state is
missing, only warn; otherwise close any open stream and, when the captured
`origwfmt` is nonzero, restore it as the channel's write format.  The
`PlaybgState` itself is never freed here. -/
def playbg_release (w : World) : World :=
  match w.chan.datastore with
  | none => w
  | some none => w
  | some (some st) =>
    let ch := { w.chan with stream := none }
    let ch := if st.origwfmt ≠ 0 then { ch with writeformat := st.origwfmt } else ch
    { w with chan := ch }

/-- `playbg_seek` (lines 145-196): close any open stream, wrap `pos` to 0
when it reached `nfiles`, then open the resource named at the current
position.  A NULL entry or a failed open advances `pos` by one and returns
-1; on success, when `samples` is nonzero the fresh stream is seeked there.
(In every state the module creates, `filearray.length = nfiles`, so the
out-of-range default `none` below is never consulted.) -/
def playbg_seek (w : World) : Int × World :=
  match w.chan.datastore with
  | none => (-1, w)
  | some none => (-1, w)
  | some (some st0) =>
    let w1 := { w with chan := { w.chan with stream := none } }
    let st := if st0.pos ≥ st0.nfiles then { st0 with pos := 0 } else st0
    let curr_pos := st.pos
    let w2 := w1.setState st
    match st.filearray.getD curr_pos none with
    | none => (-1, w2.setState { st with pos := st.pos + 1 })
    | some name =>
      match List.lookup name w2.fs with
      | none =>
        (-1, (w2.setState { st with pos := st.pos + 1 }).log
              (.openEv curr_pos st.samples name false))
      | some content =>
        let s : Stream := { name := name, content := content, remaining := content }
        let w3 := { w2 with chan := { w2.chan with stream := some s } }
        let w4 := w3.log (.openEv curr_pos st.samples name true)
        let w5 :=
          if st.samples ≠ 0 then
            ({ w4 with chan := { w4.chan with stream := some (ast_seekstream s st.samples) } }).log
              (.seekEv st.samples)
          else w4
        (0, w5)

/-- One read from the channel's current stream, updating it in place
(`f = ast_readframe(chan->stream)` on a stream known to be open). -/
def readCurrent (w : World) : Option Nat × World :=
  match w.chan.stream with
  | none => (none, w)
  | some s =>
    match ast_readframe s with
    | (none, _) => (none, w)
    | (some f, s') => (some f, { w with chan := { w.chan with stream := some s' } })

/-- `playbg_readframe` (lines 199-231): hot-path read from the open stream;
on failure seek and read once; if still no frame, advance `pos`, reset
`samples` to 0, and retry the seek-and-read once more. -/
def playbg_readframe (w : World) : Option Nat × World :=
  let (f0, w1) := readCurrent w
  let (f1, w2) :=
    match f0 with
    | some f => (some f, w1)
    | none =>
      let (r, w') := playbg_seek w1
      if r = 0 then readCurrent w' else (none, w')
  match f1 with
  | some f => (some f, w2)
  | none =>
    match w2.chan.datastore with
    | none => (none, w2)
    | some none => (none, w2)
    | some (some st) =>
      let w3 := w2.setState { st with pos := st.pos + 1, samples := 0 }
      let (r, w4) := playbg_seek w3
      if r = 0 then readCurrent w4 else (none, w4)

/-- The `while (state->sample_queue > 0)` loop of `playbg_generator`
(lines 257-269), with explicit fuel for the C `while`; `none` means the
fuel ran out before the loop did. -/
def playbg_generator_loop : Nat → World → Option (Int × World)
  | 0, _ => none
  | fuel + 1, w =>
    match w.getState with
    | none => some (-1, w)
    | some st =>
      if st.sample_queue > 0 then
        match playbg_readframe w with
        | (none, w1) => some (-1, w1)
        | (some f, w1) =>
          match w1.getState with
          | none => some (-1, w1)
          | some st1 =>
            let w2 := w1.setState
              { st1 with samples := st1.samples + f, sample_queue := st1.sample_queue - f }
            let ok := !w2.writeFails
            let w3 := w2.log (.writeEv st1.pos f ok)
            if w3.writeFails then some (-1, w3) else playbg_generator_loop fuel w3
      else some (0, w)

/-- `playbg_generator` (lines 234-271): fail without a valid state;
otherwise add the requested sample count to `sample_queue` and drain it. -/
def playbg_generator (fuel : Nat) (w : World) (samples : Int) : Option (Int × World) :=
  match w.chan.datastore with
  | none => some (-1, w)
  | some none => some (-1, w)
  | some (some st) =>
    playbg_generator_loop fuel (w.setState { st with sample_queue := st.sample_queue + samples })

/-- `playbg_alloc` (lines 274-297): require an existing state, capture the
channel's current write format into `origwfmt`, return the state. -/
def playbg_alloc (w : World) : Option PlaybgState × World :=
  match w.chan.datastore with
  | none => (none, w)
  | some none => (none, w)
  | some (some st) =>
    let st' := { st with origwfmt := w.chan.writeformat }
    (some st', w.setState st')

/-- Host collaborator (`ast_activate_generator`, spec §6): run the
generator's alloc hook; a NULL result fails activation, otherwise the
generator becomes active. -/
def ast_activate_generator (w : World) : Int × World :=
  match playbg_alloc w with
  | (none, w') => (-1, w')
  | (some _, w') => (0, { w' with chan := { w'.chan with generatorActive := true } })

/-- Host collaborator (`ast_deactivate_generator`, spec §6): if a generator
is active, run its release hook and clear it. -/
def ast_deactivate_generator (w : World) : World :=
  if w.chan.generatorActive then
    let w' := playbg_release w
    { w' with chan := { w'.chan with generatorActive := false } }
  else w

/-- The `strsep(&opt, "&")` token walk of `playbg_start`: split a character
list at every `'&'`, `acc` holding the characters of the current token. -/
def splitAmp (cs : List Char) (acc : List Char) : List String :=
  match cs with
  | [] => [String.mk acc]
  | c :: rest =>
    if c = '&' then String.mk acc :: splitAmp rest []
    else splitAmp rest (acc ++ [c])

/-- The parsed resource list of `playbg_start` (lines 324-330 and 380-389):
split at `'&'` when the delimiter occurs (`strchr`), otherwise a single
entry. -/
def parseFiles (opts : String) : List String :=
  if '&' ∈ opts.data then splitAmp opts.data [] else [opts]

/-- `playbg_start` (lines 307-403): reject an empty specification; tear
down any existing attachment (datastore removed first, so the release hook
run by deactivation finds no state), then install a fresh zeroed state with
the parsed file list and the captured write format, and activate the
generator. -/
def playbg_start (w : World) (opts : String) : Int × World :=
  if opts = "" then (-1, w)
  else
    let nfiles := (parseFiles opts).length
    if nfiles < 1 then (-1, w)
    else
      let w1 :=
        match w.chan.datastore with
        | some _ =>
          let wa := { w with chan := { w.chan with datastore := none } }
          let wb := ast_deactivate_generator wa
          { wb with chan := { wb.chan with stream := none } }
        | none => w
      let st : PlaybgState :=
        { filearray := (parseFiles opts).map some
          pos := 0
          nfiles := nfiles
          origwfmt := w1.chan.writeformat
          samples := 0
          sample_queue := 0 }
      ast_activate_generator (w1.setState st)

/-- `playbg_stop` (lines 406-433): without a valid state, only warn;
otherwise remove the datastore, deactivate the generator (whose release
hook then finds no state), and close any open stream. -/
def playbg_stop (w : World) : World :=
  match w.chan.datastore with
  | none => w
  | some none => w
  | some (some _) =>
    let wa := { w with chan := { w.chan with datastore := none } }
    let wb := ast_deactivate_generator wa
    { wb with chan := { wb.chan with stream := none } }

/-- `playbg_exec_stop` (lines 436-440): always returns 0. -/
def playbg_exec_stop (w : World) : Int × World :=
  (0, playbg_stop w)

/-- `playbg_exec_start` (lines 443-458): NULL or empty argument fails,
otherwise delegate to `playbg_start`. -/
def playbg_exec_start (w : World) (data : Option String) : Int × World :=
  match data with
  | none => (-1, w)
  | some s => if s.length = 0 then (-1, w) else playbg_start w s

/-- `playbg_exec_resume` (lines 461-483): require an existing state,
re-capture the channel's write format, re-activate the generator. -/
def playbg_exec_resume (w : World) : Int × World :=
  match w.chan.datastore with
  | none => (-1, w)
  | some none => (-1, w)
  | some (some st) =>
    let w1 := w.setState { st with origwfmt := w.chan.writeformat }
    ast_activate_generator w1

/-- Run one generator invocation per entry of `reqs` (the host scheduler's
repeated calls), collecting each invocation's return value. -/
def runBursts (fuel : Nat) (reqs : List Int) (w : World) : Option (List Int × World) :=
  match reqs with
  | [] => some ([], w)
  | n :: ns =>
    match playbg_generator fuel w n with
    | none => none
    | some (r, w') =>
      match runBursts fuel ns w' with
      | none => none
      | some (rs, w'') => some (r :: rs, w'')

/-- The indices at which a resource was successfully opened from its start
(recorded offset 0): the order in which playback enters the list's
entries. -/
def playedIndices (evs : List Event) : List Nat :=
  evs.filterMap fun e =>
    match e with
    | .openEv idx 0 _ true => some idx
    | _ => none

/-- Spec-side definition (§4.1): a specification string is "resource names
joined by a delimiter (`&`)". -/
def joinAmp : List String → String
  | [] => ""
  | [n] => n
  | n :: ns => n ++ "&" ++ joinAmp ns

/-- A channel with no background playback installed, over filesystem `fs`
and write format `wf`. -/
def initWorld (fs : List (String × FileContent)) (wf : Int) : World :=
  { fs := fs, writeFails := false
    chan := { stream := none, writeformat := wf, datastore := none, generatorActive := false }
    events := [] }

/-- The world `playbg_start` leaves behind on a fresh channel: a zeroed
state holding `files`'s names in order, generator active (the state
`playbg_start` builds at lines 364-401). -/
def startedWorld (fs : List (String × FileContent)) (wf : Int)
    (files : List (String × FileContent)) : World :=
  { fs := fs, writeFails := false
    chan := { stream := none, writeformat := wf
              datastore := some (some
                { filearray := files.map (fun p => some p.1), pos := 0
                  nfiles := files.length, origwfmt := wf, samples := 0, sample_queue := 0 })
              generatorActive := true }
    events := [] }

end PlayBG

namespace PlayBG

theorem splitAmp_ne_nil (cs acc) : splitAmp cs acc ≠ [] := by
  induction cs generalizing acc with
  | nil => simp [splitAmp]
  | cons c rest ih =>
    simp only [splitAmp]
    split
    · simp
    · exact ih _

theorem parseFiles_ne_nil (opts : String) : parseFiles opts ≠ [] := by
  unfold parseFiles
  split
  · exact splitAmp_ne_nil _ _
  · simp

theorem joinAmp_single (n : String) : joinAmp [n] = n := rfl

theorem joinAmp_cons (n m : String) (ns : List String) :
    joinAmp (n :: m :: ns) = n ++ "&" ++ joinAmp (m :: ns) := rfl

theorem splitAmp_append_free (xs : List Char) (hfree : ∀ c ∈ xs, c ≠ '&') :
    ∀ rest acc, splitAmp (xs ++ rest) acc = splitAmp rest (acc ++ xs) := by
  induction xs with
  | nil => intro rest acc; simp
  | cons c xs' ih =>
    intro rest acc
    have hc : c ≠ '&' := hfree c (by simp)
    have hfree' : ∀ c ∈ xs', c ≠ '&' := fun d hd => hfree d (by simp [hd])
    simp only [List.cons_append, splitAmp, if_neg hc, List.append_eq]
    rw [ih hfree' rest (acc ++ [c])]
    simp

theorem splitAmp_joinAmp (n : String) (ns : List String)
    (hfree : ∀ m ∈ n :: ns, '&' ∉ m.data) :
    splitAmp (joinAmp (n :: ns)).data [] = n :: ns := by
  induction ns generalizing n with
  | nil =>
    have h : ∀ c ∈ n.data, c ≠ '&' := by
      intro c hc he; exact hfree n (by simp) (he ▸ hc)
    have h2 := splitAmp_append_free n.data h [] []
    rw [joinAmp_single]
    simpa [splitAmp] using h2
  | cons m ns' ih =>
    have hdata : (joinAmp (n :: m :: ns')).data =
        n.data ++ '&' :: (joinAmp (m :: ns')).data := by
      rw [joinAmp_cons]
      simp [String.data_append]
    have h : ∀ c ∈ n.data, c ≠ '&' := by
      intro c hc he; exact hfree n (by simp) (he ▸ hc)
    rw [hdata, splitAmp_append_free n.data h, List.nil_append]
    have hfree' : ∀ p ∈ m :: ns', '&' ∉ p.data := fun p hp => hfree p (by simp [hp])
    simp only [splitAmp, if_pos trivial, ih m hfree']

theorem parseFiles_joinAmp (n : String) (ns : List String)
    (hfree : ∀ m ∈ n :: ns, '&' ∉ m.data) :
    parseFiles (joinAmp (n :: ns)) = n :: ns := by
  cases ns with
  | nil =>
    have hn : '&' ∉ n.data := hfree n (by simp)
    rw [joinAmp_single, parseFiles, if_neg hn]
  | cons m ns' =>
    have hdata : (joinAmp (n :: m :: ns')).data =
        n.data ++ '&' :: (joinAmp (m :: ns')).data := by
      rw [joinAmp_cons]
      simp [String.data_append]
    have hmem : '&' ∈ (joinAmp (n :: m :: ns')).data := by
      rw [hdata]; simp
    rw [parseFiles, if_pos hmem]
    exact splitAmp_joinAmp n (m :: ns') hfree

theorem framesFrom_cons_of_le (f : Nat) (fs : List Nat) (n : Nat)
    (h1 : 0 < n) (h2 : f ≤ n) : framesFrom (f :: fs) n = framesFrom fs (n - f) := by
  cases n with
  | zero => omega
  | succ m => simp [framesFrom, h2]

theorem framesFrom_sum (l : List Nat) (hpos : ∀ f ∈ l, 0 < f) :
    framesFrom l l.sum = [] := by
  induction l with
  | nil => rfl
  | cons f fs ih =>
    have hf : 0 < f := hpos f (by simp)
    have hsum : (f :: fs).sum = f + fs.sum := by simp
    rw [hsum, framesFrom_cons_of_le f fs (f + fs.sum) (by omega) (by omega)]
    have : f + fs.sum - f = fs.sum := by omega
    rw [this]
    exact ih (fun g hg => hpos g (by simp [hg]))

theorem loop_drain (rest : List Nat) : ∀ (fuel : Nat) (w : World) (st : PlaybgState) (s : Stream),
    w.writeFails = false →
    w.chan.datastore = some (some st) →
    w.chan.stream = some s →
    s.remaining = rest →
    st.sample_queue = (rest.sum : Int) →
    (∀ f ∈ rest, 0 < f) →
    rest.length + 1 ≤ fuel →
    playbg_generator_loop fuel w =
      some (0, { w with
        chan := { w.chan with
          stream := some { s with remaining := [] },
          datastore := some (some { st with samples := st.samples + rest.sum, sample_queue := 0 }) },
        events := w.events ++ rest.map (fun f => .writeEv st.pos f true) }) := by
  induction rest with
  | nil =>
    intro fuel w st s hwf hds hstream hrem hq hpos hfuel
    obtain ⟨fuel', rfl⟩ : ∃ k, fuel = k + 1 := ⟨fuel - 1, by omega⟩
    have hq0 : ¬ (st.sample_queue > 0) := by rw [hq]; simp
    have hs : ({ s with remaining := ([] : List Nat) } : Stream) = s := by
      cases s; simp_all
    have hst : ({ st with samples := st.samples + 0, sample_queue := (0 : Int) } : PlaybgState) = st := by
      cases st
      simp only [PlaybgState.mk.injEq]
      simp_all
    simp only [playbg_generator_loop, World.getState, hds, hq0, if_neg hq0, List.sum_nil,
      List.map_nil, List.append_nil, hs, hst]
    rw [← hstream, ← hds]
    rfl
  | cons f rest' ih =>
    intro fuel w st s hwf hds hstream hrem hq hpos hfuel
    obtain ⟨fuel', rfl⟩ : ∃ k, fuel = k + 1 := ⟨fuel - 1, by omega⟩
    have hf : 0 < f := hpos f (by simp)
    have hsum : (f :: rest').sum = f + rest'.sum := by simp
    rw [hsum] at hq
    have hqpos : st.sample_queue > 0 := by
      rw [hq]; exact_mod_cast Nat.add_pos_left hf rest'.sum
    have hqm : st.sample_queue - (f : Int) = ((rest'.sum : Nat) : Int) := by
      rw [hq, Nat.cast_add]; omega
    have hstep : playbg_generator_loop (fuel' + 1) w = playbg_generator_loop fuel'
        ({ w with
           chan := { w.chan with
             stream := some { s with remaining := rest' },
             datastore := some (some { st with samples := st.samples + f,
                                               sample_queue := ((rest'.sum : Nat) : Int) }) },
           events := w.events ++ [.writeEv st.pos f true] }) := by
      simp only [playbg_generator_loop, World.getState, hds, if_pos hqpos,
        playbg_readframe, readCurrent, hstream, ast_readframe, hrem,
        World.setState, World.log, hwf]
      simp only [hds, hqm, hwf, Bool.not_false]
      rfl
    rw [hstep]
    rw [ih fuel'
      ({ w with
         chan := { w.chan with
           stream := some { s with remaining := rest' },
           datastore := some (some { st with samples := st.samples + f,
                                             sample_queue := ((rest'.sum : Nat) : Int) }) },
         events := w.events ++ [.writeEv st.pos f true] })
      ({ st with samples := st.samples + f, sample_queue := ((rest'.sum : Nat) : Int) })
      ({ s with remaining := rest' })
      (by simp [hwf]) (by simp) (by simp) (by simp) (by simp)
      (fun g hg => hpos g (by simp [hg]))
      (by simp only [List.length_cons] at hfuel; omega)]
    simp [List.append_assoc, Nat.add_assoc]


theorem burst_first (w : World) (st : PlaybgState) (name : String) (content : FileContent)
    (f1 : Nat) (rest1 : List Nat) (fuel : Nat)
    (hwf : w.writeFails = false)
    (hds : w.chan.datastore = some (some st))
    (hstream : w.chan.stream = none)
    (hpos : st.pos < st.nfiles)
    (hentry : st.filearray.getD st.pos none = some name)
    (hlk : List.lookup name w.fs = some content)
    (hsmp : st.samples = 0)
    (hq : st.sample_queue = 0)
    (hcon : content = f1 :: rest1)
    (hcpos : ∀ g ∈ content, 0 < g)
    (hfuel : content.length + 1 ≤ fuel) :
    playbg_generator fuel w (content.sum : Int) =
      some (0, { w with
        chan := { w.chan with
          stream := some { name := name, content := content, remaining := [] },
          datastore := some (some { st with samples := content.sum, sample_queue := 0 }) },
        events := w.events ++ .openEv st.pos 0 name true ::
          content.map (fun g => .writeEv st.pos g true) }) := by
  obtain ⟨fuel', rfl⟩ : ∃ k, fuel = k + 1 := ⟨fuel - 1, by omega⟩
  have hf1 : 0 < f1 := hcpos f1 (by simp [hcon])
  have hsumpos : ((content.sum : Int)) > 0 := by
    rw [hcon, List.sum_cons]; exact_mod_cast Nat.add_pos_left hf1 rest1.sum
  have hentry' : st.filearray[st.pos]?.getD none = some name := by
    simpa [List.getD] using hentry
  have hwrap : ¬ st.pos ≥ st.nfiles := by omega
  have hqm : (content.sum : Int) - (f1 : Int) = ((rest1.sum : Nat) : Int) := by
    rw [hcon, List.sum_cons, Nat.cast_add]; omega
  have hstep : playbg_generator (fuel' + 1) w (content.sum : Int) =
      playbg_generator_loop fuel'
        ({ w with
           chan := { w.chan with
             stream := some { name := name, content := content, remaining := rest1 },
             datastore := some (some { st with samples := f1,
                                               sample_queue := ((rest1.sum : Nat) : Int) }) },
           events := w.events ++ [.openEv st.pos 0 name true, .writeEv st.pos f1 true] }) := by
    have hsumposN : 0 < content.sum := by rw [hcon, List.sum_cons]; omega
    simp [-Nat.cast_list_sum, playbg_generator, playbg_generator_loop, World.getState,
      World.setState, World.log, playbg_readframe, readCurrent, playbg_seek, ast_readframe,
      ast_seekstream, hds, hq, hstream, hentry', hlk, hsmp, hwrap, hcon, hqm, hwf,
      hsumposN]
    intro hcontra
    exfalso
    omega
  rw [hstep]
  rw [loop_drain rest1 fuel'
    ({ w with
       chan := { w.chan with
         stream := some { name := name, content := content, remaining := rest1 },
         datastore := some (some { st with samples := f1,
                                           sample_queue := ((rest1.sum : Nat) : Int) }) },
       events := w.events ++ [.openEv st.pos 0 name true, .writeEv st.pos f1 true] })
    ({ st with samples := f1, sample_queue := ((rest1.sum : Nat) : Int) })
    ({ name := name, content := content, remaining := rest1 })
    (by simp [hwf]) (by simp) (by simp) (by simp) (by simp)
    (fun g hg => hcpos g (by simp [hcon, hg]))
    (by simp [hcon] at hfuel ⊢; omega)]
  simp [-Nat.cast_list_sum, hcon, List.append_assoc, Nat.add_assoc]



theorem sum_pos_of_pos_mem (l : List Nat) (hne : l ≠ []) (hpos : ∀ g ∈ l, 0 < g) :
    0 < l.sum := by
  cases l with
  | nil => exact absurd rfl hne
  | cons a l' =>
    have := hpos a (by simp)
    simp [List.sum_cons]
    omega

theorem burst_next (w : World) (st : PlaybgState) (pname nname : String)
    (pcontent ncontent : FileContent) (f1 : Nat) (rest1 : List Nat) (j' : Nat) (fuel : Nat)
    (hwf : w.writeFails = false)
    (hds : w.chan.datastore = some (some st))
    (hstream : w.chan.stream = some { name := pname, content := pcontent, remaining := [] })
    (hpos : st.pos < st.nfiles)
    (hentryP : st.filearray.getD st.pos none = some pname)
    (hlkP : List.lookup pname w.fs = some pcontent)
    (hsmp : st.samples = pcontent.sum)
    (hppos : ∀ g ∈ pcontent, 0 < g)
    (hpne : pcontent ≠ [])
    (hq : st.sample_queue = 0)
    (hj' : (st.pos + 1 ≥ st.nfiles ∧ j' = 0) ∨ (¬ st.pos + 1 ≥ st.nfiles ∧ j' = st.pos + 1))
    (hentryN : st.filearray.getD j' none = some nname)
    (hlkN : List.lookup nname w.fs = some ncontent)
    (hcon : ncontent = f1 :: rest1)
    (hcpos : ∀ g ∈ ncontent, 0 < g)
    (hfuel : ncontent.length + 1 ≤ fuel) :
    playbg_generator fuel w (ncontent.sum : Int) =
      some (0, { w with
        chan := { w.chan with
          stream := some { name := nname, content := ncontent, remaining := [] },
          datastore := some (some { st with pos := j', samples := ncontent.sum,
                                            sample_queue := 0 }) },
        events := w.events ++ [.openEv st.pos pcontent.sum pname true, .seekEv pcontent.sum,
            .openEv j' 0 nname true] ++ ncontent.map (fun g => .writeEv j' g true) }) := by
  obtain ⟨fuel', rfl⟩ : ∃ k, fuel = k + 1 := ⟨fuel - 1, by omega⟩
  have hf1 : 0 < f1 := hcpos f1 (by simp [hcon])
  have hsumpos : ((ncontent.sum : Int)) > 0 := by
    rw [hcon, List.sum_cons]; exact_mod_cast Nat.add_pos_left hf1 rest1.sum
  have hsumposN : 0 < ncontent.sum := by rw [hcon, List.sum_cons]; omega
  have hentryP' : st.filearray[st.pos]?.getD none = some pname := by
    simpa [List.getD] using hentryP
  have hwrap1 : ¬ st.pos ≥ st.nfiles := by omega
  have hframes : framesFrom pcontent pcontent.sum = [] := framesFrom_sum pcontent hppos
  have hsmpne : st.samples ≠ 0 := by
    have := sum_pos_of_pos_mem pcontent hpne hppos
    omega
  have hpsum : ¬ (List.sum pcontent = 0) := by
    have := sum_pos_of_pos_mem pcontent hpne hppos
    omega
  have hqm : (ncontent.sum : Int) - (f1 : Int) = ((rest1.sum : Nat) : Int) := by
    rw [hcon, List.sum_cons, Nat.cast_add]; omega
  have hstep : playbg_generator (fuel' + 1) w (ncontent.sum : Int) =
      playbg_generator_loop fuel'
        ({ w with
           chan := { w.chan with
             stream := some { name := nname, content := ncontent, remaining := rest1 },
             datastore := some (some { st with pos := j', samples := f1,
                                               sample_queue := ((rest1.sum : Nat) : Int) }) },
           events := w.events ++ [.openEv st.pos pcontent.sum pname true, .seekEv pcontent.sum,
               .openEv j' 0 nname true, .writeEv j' f1 true] }) := by
    rcases hj' with ⟨hge, rfl⟩ | ⟨hlt, rfl⟩
    · have hentryN' : st.filearray[(0 : Nat)]?.getD none = some nname := by
        simpa [List.getD] using hentryN
      simp [-Nat.cast_list_sum, playbg_generator, playbg_generator_loop, World.getState,
        World.setState, World.log, playbg_readframe, readCurrent, playbg_seek, ast_readframe,
        ast_seekstream, hds, hq, hstream, hentryP', hentryN', hlkP, hlkN, hsmp, hsmpne,
        hwrap1, hge, hframes, hcon, hqm, hwf, hsumposN, hpsum]
      intro hcontra
      exfalso
      omega
    · have hentryN' : st.filearray[st.pos + 1]?.getD none = some nname := by
        simpa [List.getD] using hentryN
      simp [-Nat.cast_list_sum, playbg_generator, playbg_generator_loop, World.getState,
        World.setState, World.log, playbg_readframe, readCurrent, playbg_seek, ast_readframe,
        ast_seekstream, hds, hq, hstream, hentryP', hentryN', hlkP, hlkN, hsmp, hsmpne,
        hwrap1, hlt, hframes, hcon, hqm, hwf, hsumposN, hpsum]
      intro hcontra
      exfalso
      omega
  rw [hstep]
  rw [loop_drain rest1 fuel'
    ({ w with
       chan := { w.chan with
         stream := some { name := nname, content := ncontent, remaining := rest1 },
         datastore := some (some { st with pos := j', samples := f1,
                                           sample_queue := ((rest1.sum : Nat) : Int) }) },
       events := w.events ++ [.openEv st.pos pcontent.sum pname true, .seekEv pcontent.sum,
           .openEv j' 0 nname true, .writeEv j' f1 true] })
    ({ st with pos := j', samples := f1, sample_queue := ((rest1.sum : Nat) : Int) })
    ({ name := nname, content := ncontent, remaining := rest1 })
    (by simp [hwf]) (by simp) (by simp) (by simp) (by simp)
    (fun g hg => hcpos g (by simp [hcon, hg]))
    (by simp [hcon] at hfuel ⊢; omega)]
  simp [-Nat.cast_list_sum, hcon, List.append_assoc, Nat.add_assoc]



theorem playedIndices_append (a b : List Event) :
    playedIndices (a ++ b) = playedIndices a ++ playedIndices b := by
  simp [playedIndices]

theorem playedIndices_writes (idx : Nat) (l : List Nat) (b : Bool) :
    playedIndices (l.map (fun g => .writeEv idx g b)) = [] := by
  induction l with
  | nil => rfl
  | cons a l ih => simp only [List.map_cons, playedIndices] at ih ⊢; exact ih

theorem run_chain (todo : List (String × FileContent)) :
    ∀ (w : World) (st : PlaybgState) (prev : String × FileContent) (fuel : Nat),
    w.writeFails = false →
    w.chan.datastore = some (some st) →
    w.chan.stream = some { name := prev.1, content := prev.2, remaining := [] } →
    st.pos < st.nfiles →
    st.filearray.getD st.pos none = some prev.1 →
    List.lookup prev.1 w.fs = some prev.2 →
    st.samples = prev.2.sum →
    (∀ g ∈ prev.2, 0 < g) →
    prev.2 ≠ [] →
    st.sample_queue = 0 →
    st.pos + todo.length < st.nfiles →
    (∀ i, i < todo.length →
       st.filearray.getD (st.pos + 1 + i) none = some ((todo.getD i prev).1) ∧
       List.lookup ((todo.getD i prev).1) w.fs = some ((todo.getD i prev).2)) →
    (∀ p ∈ todo, (∀ g ∈ p.2, 0 < g) ∧ p.2 ≠ []) →
    (∀ p ∈ todo, p.2.length + 1 ≤ fuel) →
    ∃ W : World,
      runBursts fuel (todo.map fun p => (p.2.sum : Int)) w =
        some (todo.map fun _ => (0 : Int), W) ∧
      W.fs = w.fs ∧
      W.writeFails = false ∧
      W.chan.datastore = some (some { st with pos := st.pos + todo.length,
                                              samples := (todo.getLastD prev).2.sum }) ∧
      W.chan.stream = some { name := (todo.getLastD prev).1,
                             content := (todo.getLastD prev).2, remaining := [] } ∧
      playedIndices W.events = playedIndices w.events ++ List.range' (st.pos + 1) todo.length := by
  induction todo with
  | nil =>
    intro w st prev fuel hwf hds hstream hpos hentry hlk hsmp hppos hpne hq hrange hentries htodo hfuel
    refine ⟨w, by simp [runBursts], rfl, hwf, ?_, by simpa using hstream, by simp⟩
    have heta : ({ st with pos := st.pos + 0, samples := prev.2.sum } : PlaybgState) = st := by
      cases st; simp_all
    simp only [List.length_nil, List.getLastD_nil]
    rw [heta]; exact hds
  | cons q todo' ih =>
    intro w st prev fuel hwf hds hstream hpos hentry hlk hsmp hppos hpne hq hrange hentries htodo hfuel
    obtain ⟨f1, rest1, hcon⟩ : ∃ f1 rest1, q.2 = f1 :: rest1 := by
      cases hq2 : q.2 with
      | nil => exact absurd hq2 (htodo q (by simp)).2
      | cons a l => exact ⟨a, l, rfl⟩
    have hent0 := hentries 0 (by simp)
    simp only [Nat.add_zero, List.getD_cons_zero] at hent0
    have hnowrap : ¬ st.pos + 1 ≥ st.nfiles := by
      simp only [List.length_cons] at hrange; omega
    have hb := burst_next w st prev.1 q.1 prev.2 q.2 f1 rest1 (st.pos + 1) fuel
      hwf hds hstream hpos hentry hlk hsmp hppos hpne hq
      (Or.inr ⟨hnowrap, rfl⟩) hent0.1 hent0.2 hcon (htodo q (by simp)).1
      (hfuel q (by simp))
    set Wb : World :=
      { w with
        chan := { w.chan with
          stream := some { name := q.1, content := q.2, remaining := [] },
          datastore := some (some { st with pos := st.pos + 1, samples := q.2.sum,
                                            sample_queue := 0 }) },
        events := w.events ++ [.openEv st.pos prev.2.sum prev.1 true, .seekEv prev.2.sum,
            .openEv (st.pos + 1) 0 q.1 true] ++ q.2.map (fun g => .writeEv (st.pos + 1) g true) }
      with hWb
    obtain ⟨W, hrun, hWfs, hWwf, hWds, hWstream, hWplayed⟩ :=
      ih Wb ({ st with pos := st.pos + 1, samples := q.2.sum, sample_queue := 0 }) q fuel
        (by simp [hWb, hwf]) (by simp [hWb]) (by simp [hWb]) (by simp; omega)
        (by simpa using hent0.1) (by simpa [hWb] using hent0.2) rfl
        (htodo q (by simp)).1 (htodo q (by simp)).2 rfl
        (by simp only [List.length_cons] at hrange; simp; omega)
        (by
          intro i hi
          have h := hentries (i + 1) (by simp; omega)
          have harith2 : st.pos + 1 + (i + 1) = st.pos + 1 + 1 + i := by omega
          rw [harith2, List.getD_cons_succ, List.getD_eq_getElem todo' prev hi] at h
          rw [List.getD_eq_getElem todo' q hi]
          exact ⟨by simpa using h.1, by simpa [hWb] using h.2⟩)
        (fun p hp => htodo p (by simp [hp]))
        (fun p hp => hfuel p (by simp [hp]))
    refine ⟨W, ?_, by simp [hWfs, hWb], hWwf, ?_, ?_, ?_⟩
    · simp only [List.map_cons, runBursts, hb, hrun]
    · rw [hq, List.getLastD_cons]
      have harith : st.pos + (q :: todo').length = st.pos + 1 + todo'.length := by
        simp [List.length_cons]; omega
      rw [harith]
      simpa using hWds
    · rw [List.getLastD_cons]
      simpa using hWstream
    · rw [hWplayed]
      obtain ⟨m, hm⟩ : ∃ m, prev.2.sum = m + 1 := by
        have := sum_pos_of_pos_mem prev.2 hpne hppos
        exact ⟨prev.2.sum - 1, by omega⟩
      simp only [hWb]
      rw [playedIndices_append, playedIndices_append]
      simp [playedIndices, hm, List.range'_succ]


theorem runBursts_append (fuel : Nat) (l1 l2 : List Int) :
    ∀ (w w1 : World) (r1 : List Int),
    runBursts fuel l1 w = some (r1, w1) →
    runBursts fuel (l1 ++ l2) w =
      (runBursts fuel l2 w1).map (fun p => (r1 ++ p.1, p.2)) := by
  induction l1 with
  | nil =>
    intro w w1 r1 h
    simp only [runBursts, Option.some.injEq, Prod.mk.injEq] at h
    obtain ⟨rfl, rfl⟩ := h
    simp only [List.nil_append]
    cases hr : runBursts fuel l2 w with
    | none => simp [hr]
    | some p => simp [hr]
  | cons n l1' ih =>
    intro w w1 r1 h
    simp only [List.cons_append, runBursts] at h ⊢
    cases hg : playbg_generator fuel w n with
    | none => rw [hg] at h; simp at h
    | some p =>
      obtain ⟨r, w'⟩ := p
      rw [hg] at h
      simp only at h ⊢
      cases hr : runBursts fuel l1' w' with
      | none => rw [hr] at h; simp at h
      | some p2 =>
        obtain ⟨rs, w2⟩ := p2
        rw [hr] at h
        simp only [Option.some.injEq, Prod.mk.injEq] at h
        obtain ⟨h1, h2⟩ := h
        subst h2
        simp only [List.append_eq]
        rw [ih w' w2 rs hr]
        cases hr2 : runBursts fuel l2 w2 with
        | none => simp [hr2]
        | some p3 => simp [hr2, ← h1]

theorem getD_map_last {α β : Type} (p0 : α) (rest : List α) (f : α → β) (d : β) :
    ((p0 :: rest).map f).getD rest.length d = f (rest.getLastD p0) := by
  induction rest generalizing p0 with
  | nil => simp
  | cons q rest' ih =>
    rw [List.getLastD_cons]
    simpa using ih q



theorem runBursts_wraparound
    (fs : List (String × FileContent)) (wf : Int)
    (p0 : String × FileContent) (rest : List (String × FileContent)) (fuel : Nat)
    (hlk : ∀ p ∈ p0 :: rest, List.lookup p.1 fs = some p.2)
    (hposall : ∀ p ∈ p0 :: rest, ∀ g ∈ p.2, 0 < g)
    (hneall : ∀ p ∈ p0 :: rest, p.2 ≠ [])
    (hfuel : ∀ p ∈ p0 :: rest, p.2.length + 1 ≤ fuel) :
    ∃ W : World,
      runBursts fuel (((p0 :: rest).map fun p => ((p.2.sum : Nat) : Int)) ++
          [((p0.2.sum : Nat) : Int)]) (startedWorld fs wf (p0 :: rest)) =
        some ((((p0 :: rest).map fun _ => (0 : Int))) ++ [(0 : Int)], W) ∧
      playedIndices W.events = List.range (p0 :: rest).length ++ [(0 : Nat)] ∧
      ∃ stW : PlaybgState, W.getState = some stW ∧ stW.pos = 0 ∧ stW.samples = p0.2.sum := by
  obtain ⟨f1, rest1, hcon⟩ : ∃ f1 rest1, p0.2 = f1 :: rest1 := by
    cases hc : p0.2 with
    | nil => exact absurd hc (hneall p0 (by simp))
    | cons a l => exact ⟨a, l, rfl⟩
  set st0 : PlaybgState :=
    { filearray := (p0 :: rest).map (fun p => some p.1), pos := 0
      nfiles := (p0 :: rest).length, origwfmt := wf, samples := 0, sample_queue := 0 } with hst0
  have hb1 := burst_first (startedWorld fs wf (p0 :: rest)) st0 p0.1 p0.2 f1 rest1 fuel
    (by simp [startedWorld]) (by simp [startedWorld, hst0]) (by simp [startedWorld])
    (by simp [hst0]) (by simp [hst0]) (by simpa [startedWorld] using hlk p0 (by simp))
    (by simp [hst0]) (by simp [hst0]) hcon (hposall p0 (by simp)) (hfuel p0 (by simp))
  set Wa : World :=
    { (startedWorld fs wf (p0 :: rest)) with
      chan := { (startedWorld fs wf (p0 :: rest)).chan with
        stream := some { name := p0.1, content := p0.2, remaining := [] },
        datastore := some (some { st0 with samples := p0.2.sum, sample_queue := 0 }) },
      events := (startedWorld fs wf (p0 :: rest)).events ++ .openEv st0.pos 0 p0.1 true ::
        p0.2.map (fun g => .writeEv st0.pos g true) } with hWa
  have hchain := run_chain rest Wa ({ st0 with samples := p0.2.sum, sample_queue := 0 }) p0 fuel
    (by simp [hWa, startedWorld]) (by simp [hWa]) (by simp [hWa]) (by simp [hst0])
    (by simp [hst0]) (by simpa [hWa, startedWorld] using hlk p0 (by simp)) rfl
    (hposall p0 (by simp)) (hneall p0 (by simp)) rfl
    (by simp [hst0])
    (by
      intro i hi
      have hgl : rest.getD i p0 = rest[i] := List.getD_eq_getElem rest p0 hi
      have harith : (0 : Nat) + 1 + i = i + 1 := by omega
      rw [hgl]
      constructor
      · rw [hst0]
        simp only [harith, List.map_cons, List.getD_cons_succ]
        rw [List.getD_eq_getElem _ _ (by simpa using hi)]
        simp
      · rw [hWa]
        simpa [startedWorld] using hlk rest[i] (by simp [List.getElem_mem hi]))
    (fun p hp => ⟨hposall p (by simp [hp]), hneall p (by simp [hp])⟩)
    (fun p hp => hfuel p (by simp [hp]))
  obtain ⟨W, hrun, hWfs, hWwf, hWds, hWstream, hWplay⟩ := hchain
  have hlast_mem : rest.getLastD p0 ∈ p0 :: rest := List.getLastD_mem_cons rest p0
  have hWds' : W.chan.datastore = some (some
      { filearray := (p0 :: rest).map (fun p => some p.1), pos := rest.length
        nfiles := (p0 :: rest).length, origwfmt := wf
        samples := (rest.getLastD p0).2.sum, sample_queue := 0 }) := by
    simpa [hst0] using hWds
  have hb2 := burst_next W
    ({ filearray := (p0 :: rest).map (fun p => some p.1), pos := rest.length
       nfiles := (p0 :: rest).length, origwfmt := wf
       samples := (rest.getLastD p0).2.sum, sample_queue := 0 })
    (rest.getLastD p0).1 p0.1 (rest.getLastD p0).2 p0.2 f1 rest1 0 fuel
    hWwf hWds' (by simpa [hst0] using hWstream) (by simp)
    (by simpa using getD_map_last p0 rest (fun p => some p.1) none)
    (by rw [hWfs]; simpa [hWa, startedWorld] using hlk _ hlast_mem)
    rfl (hposall _ hlast_mem) (hneall _ hlast_mem) rfl
    (Or.inl ⟨by simp, rfl⟩)
    (by simp)
    (by rw [hWfs]; simpa [hWa, startedWorld] using hlk p0 (by simp))
    hcon (hposall p0 (by simp)) (hfuel p0 (by simp))
  obtain ⟨Wf, hgen2, hWfev, hWfst⟩ :
      ∃ Wf : World, playbg_generator fuel W ((p0.2.sum : Nat) : Int) = some (0, Wf) ∧
        Wf.events = W.events ++ [.openEv rest.length (rest.getLastD p0).2.sum
            (rest.getLastD p0).1 true, .seekEv (rest.getLastD p0).2.sum,
            .openEv 0 0 p0.1 true] ++ p0.2.map (fun g => .writeEv 0 g true) ∧
        Wf.getState = some { filearray := (p0 :: rest).map (fun p => some p.1), pos := 0
                             nfiles := (p0 :: rest).length, origwfmt := wf
                             samples := p0.2.sum, sample_queue := 0 } :=
    ⟨_, hb2, rfl, rfl⟩
  have h2 : runBursts fuel ((rest.map fun p => ((p.2.sum : Nat) : Int)) ++
      [((p0.2.sum : Nat) : Int)]) Wa =
      some ((rest.map fun _ => (0 : Int)) ++ [(0 : Int)], Wf) := by
    rw [runBursts_append fuel _ _ Wa W _ hrun]
    simp only [runBursts, hgen2]
    rfl
  refine ⟨Wf, ?_, ?_, ?_⟩
  · simp only [List.map_cons, List.cons_append, runBursts, hb1, List.append_eq, h2]
  · obtain ⟨m, hm⟩ : ∃ m, (rest.getLastD p0).2.sum = m + 1 := by
      have := sum_pos_of_pos_mem (rest.getLastD p0).2 (hneall _ hlast_mem) (hposall _ hlast_mem)
      exact ⟨(rest.getLastD p0).2.sum - 1, by omega⟩
    rw [hWfev, playedIndices_append, playedIndices_append]
    rw [hWplay]
    have hWaplay : playedIndices Wa.events = [0] := by
      rw [hWa]
      simp only [startedWorld, List.nil_append]
      show playedIndices (.openEv st0.pos 0 p0.1 true ::
        p0.2.map (fun g => .writeEv st0.pos g true)) = [0]
      rw [show (Event.openEv st0.pos 0 p0.1 true ::
        p0.2.map (fun g => Event.writeEv st0.pos g true)) =
        [Event.openEv st0.pos 0 p0.1 true] ++
          p0.2.map (fun g => Event.writeEv st0.pos g true) from rfl]
      rw [playedIndices_append, playedIndices_writes]
      simp [playedIndices, hst0]
    rw [hWaplay, playedIndices_writes]
    simp only [List.getLastD_eq_getLast?] at hm
    simp [playedIndices, hm, hst0, List.length_cons, List.range_eq_range', List.range'_succ]
  · exact ⟨_, hWfst, rfl, rfl⟩



theorem start_joined (fs : List (String × FileContent)) (wf : Int)
    (p0 : String × FileContent) (rest : List (String × FileContent))
    (hamp : ∀ p ∈ p0 :: rest, '&' ∉ p.1.data)
    (hne : joinAmp ((p0 :: rest).map (fun p => p.1)) ≠ "") :
    playbg_start (initWorld fs wf) (joinAmp ((p0 :: rest).map (fun p => p.1))) =
      (0, startedWorld fs wf (p0 :: rest)) := by
  have hparse : parseFiles (joinAmp ((p0 :: rest).map (fun p => p.1))) =
      (p0 :: rest).map (fun p => p.1) := by
    have h := parseFiles_joinAmp p0.1 (rest.map (fun p => p.1))
      (by
        intro m hm
        simp only [List.mem_cons, List.mem_map] at hm
        rcases hm with rfl | ⟨p, hp, rfl⟩
        · exact hamp p0 (by simp)
        · exact hamp p (by simp [hp]))
    simpa using h
  rw [playbg_start, if_neg hne]
  simp only [hparse]
  rw [if_neg (by simp)]
  simp [initWorld, startedWorld, ast_activate_generator, playbg_alloc, World.setState,
    List.map_map, Function.comp]


end PlayBG

namespace PlayBG

theorem resume_some_eq (w : World) (st : PlaybgState)
    (hds : w.chan.datastore = some (some st)) :
    playbg_exec_resume w =
      (0, { w with chan := { w.chan with
              datastore := some (some { st with origwfmt := w.chan.writeformat }),
              generatorActive := true } }) := by
  simp [playbg_exec_resume, hds, ast_activate_generator, playbg_alloc, World.setState]

theorem bad_single_burst (fuel : Nat) (w : World) (nm : String) (owf : Int) (p : Nat) (q n : Int)
    (hds : w.chan.datastore = some (some
      { filearray := [some nm], pos := p, nfiles := 1, origwfmt := owf,
        samples := 0, sample_queue := q }))
    (hstream : w.chan.stream = none)
    (hlk : List.lookup nm w.fs = none)
    (hp : p ≤ 1) (hq : 0 ≤ q) (hn : 0 < n) :
    playbg_generator (fuel + 1) w n =
      some (-1, { w with
        chan := { w.chan with
          stream := none,
          datastore := some (some
            { filearray := [some nm], pos := 1, nfiles := 1, origwfmt := owf,
              samples := 0, sample_queue := q + n }) },
        events := w.events ++ [.openEv 0 0 nm false, .openEv 0 0 nm false] }) := by
  have hqpos : q + n > 0 := by omega
  rcases Nat.le_one_iff_eq_zero_or_eq_one.mp hp with rfl | rfl
  · simp [playbg_generator, playbg_generator_loop, World.getState, World.setState, World.log,
      playbg_readframe, readCurrent, playbg_seek, hds, hstream, hlk, hqpos]
  · simp [playbg_generator, playbg_generator_loop, World.getState, World.setState, World.log,
      playbg_readframe, readCurrent, playbg_seek, hds, hstream, hlk, hqpos]

end PlayBG

namespace PlayBG

theorem bad_single_runs (reqs : List Int) :
    ∀ (fuel : Nat) (w : World) (nm : String) (owf : Int) (p : Nat) (q : Int),
    (∀ n ∈ reqs, 0 < n) →
    w.chan.datastore = some (some
      { filearray := [some nm], pos := p, nfiles := 1, origwfmt := owf,
        samples := 0, sample_queue := q }) →
    w.chan.stream = none →
    List.lookup nm w.fs = none →
    p ≤ 1 → 0 ≤ q →
    ∃ W : World,
      runBursts (fuel + 1) reqs w = some (reqs.map (fun _ => (-1 : Int)), W) ∧
      W.events = w.events ++ List.replicate (2 * reqs.length) (.openEv 0 0 nm false) := by
  induction reqs with
  | nil =>
    intro fuel w nm owf p q hpos hds hstream hlk hp hq
    exact ⟨w, by simp [runBursts], by simp⟩
  | cons n ns ih =>
    intro fuel w nm owf p q hpos hds hstream hlk hp hq
    have hb := bad_single_burst fuel w nm owf p q n hds hstream hlk hp hq (hpos n (by simp))
    obtain ⟨W, hrun, hev⟩ := ih fuel
      ({ w with
        chan := { w.chan with
          stream := none,
          datastore := some (some
            { filearray := [some nm], pos := 1, nfiles := 1, origwfmt := owf,
              samples := 0, sample_queue := q + n }) },
        events := w.events ++ [.openEv 0 0 nm false, .openEv 0 0 nm false] })
      nm owf 1 (q + n)
      (fun m hm => hpos m (by simp [hm])) (by simp) (by simp) (by simpa using hlk)
      (by omega) (by have := hpos n (by simp); omega)
    refine ⟨W, ?_, ?_⟩
    · simp only [runBursts, hb, hrun, List.map_cons]
    · rw [hev]
      simp only [List.append_assoc, List.length_cons]
      congr 1

end PlayBG

namespace PlayBG

/-- Claim C2: Resume fails with a missing-state error when no attachment
exists on the channel; otherwise it re-captures the channel's current write
format and re-activates the generator against the existing state without
modifying `pos` or `samples`, so the first read after resumption opens the
resource at the recorded index and seeks the reopened stream to the
recorded sample offset before any data is produced. -/
theorem playbg_c2_resume :
    (∀ w : World, w.chan.datastore = none → playbg_exec_resume w = (-1, w)) ∧
    (∀ (w : World) (st : PlaybgState), w.chan.datastore = some (some st) →
      playbg_exec_resume w =
        (0, { w with chan := { w.chan with
                datastore := some (some { st with origwfmt := w.chan.writeformat }),
                generatorActive := true } })) ∧
    (∀ (w : World) (st : PlaybgState) (name : String) (content : FileContent)
        (f : Nat) (rest : List Nat),
      w.chan.datastore = some (some st) →
      w.chan.stream = none →
      st.pos < st.nfiles →
      st.filearray.getD st.pos none = some name →
      List.lookup name w.fs = some content →
      st.samples ≠ 0 →
      framesFrom content st.samples = f :: rest →
      (playbg_readframe (playbg_exec_resume w).2).1 = some f ∧
      (playbg_readframe (playbg_exec_resume w).2).2.events =
        w.events ++ [.openEv st.pos st.samples name true, .seekEv st.samples]) := by
  refine ⟨fun w h => by simp [playbg_exec_resume, h], fun w st h => resume_some_eq w st h, ?_⟩
  intro w st name content f rest hds hstream hpos hentry hlk hsmp hmid
  have hentry' : st.filearray[st.pos]?.getD none = some name := by
    simpa [List.getD] using hentry
  rw [resume_some_eq w st hds]
  have hwrap : ¬ st.pos ≥ st.nfiles := by omega
  simp [playbg_readframe, readCurrent, hstream, playbg_seek, World.setState, World.log,
    hentry', hlk, hsmp, hwrap, ast_seekstream, hmid, ast_readframe]

/-- Witness for C2 at concrete inputs: a channel without state, a freshly
started channel, and a channel interrupted mid-resource at offset 2 in a
file of two 2-sample frames. -/
theorem playbg_c2_resume_witness :
    playbg_exec_resume (initWorld [] 5) = (-1, initWorld [] 5) ∧
    playbg_exec_resume (startedWorld [("a", [4])] 5 [("a", [4])]) =
      (0, { startedWorld [("a", [4])] 5 [("a", [4])] with
        chan := { (startedWorld [("a", [4])] 5 [("a", [4])]).chan with
          datastore := some (some
            { filearray := [some "a"], pos := 0, nfiles := 1, origwfmt := 5,
              samples := 0, sample_queue := 0 }),
          generatorActive := true } }) ∧
    ((playbg_readframe (playbg_exec_resume
        { fs := [("a", [2, 2])], writeFails := false
          chan := { stream := none, writeformat := 7
                    datastore := some (some
                      { filearray := [some "a"], pos := 0, nfiles := 1, origwfmt := 5,
                        samples := 2, sample_queue := 0 })
                    generatorActive := false }
          events := [] }).2).1 = some 2 ∧
     (playbg_readframe (playbg_exec_resume
        { fs := [("a", [2, 2])], writeFails := false
          chan := { stream := none, writeformat := 7
                    datastore := some (some
                      { filearray := [some "a"], pos := 0, nfiles := 1, origwfmt := 5,
                        samples := 2, sample_queue := 0 })
                    generatorActive := false }
          events := [] }).2).2.events =
       [] ++ [.openEv 0 2 "a" true, .seekEv 2]) :=
  ⟨playbg_c2_resume.1 (initWorld [] 5) rfl,
   playbg_c2_resume.2.1 (startedWorld [("a", [4])] 5 [("a", [4])]) _ rfl,
   playbg_c2_resume.2.2 _ _ "a" [2, 2] 2 [] rfl rfl (by decide) (by decide) (by decide)
     (by decide) (by decide)⟩

/-- Claim C3: whenever `pos` reaches `nfiles`, `playbg_seek` normalizes it
to 0 before the next resource open (seeking behaves exactly as if `pos`
were 0); and in the concrete scenario of a single-entry list whose file
holds 100 samples (five 20-sample frames) and a 160-sample request, after
the file is consumed the index wraps to 0, the sample offset is reset to 0,
the file is reopened at its start (the open event records offset 0), and
the remaining 60 samples are drawn from its start. -/
theorem playbg_c3_wrap_normalization :
    (∀ (w : World) (st : PlaybgState), w.chan.datastore = some (some st) →
      st.nfiles ≤ st.pos →
      playbg_seek w = playbg_seek (w.setState { st with pos := 0 })) ∧
    ((playbg_generator 20 (playbg_start (initWorld [("a", [20, 20, 20, 20, 20])] 5) "a").2
        160).map (fun p => (p.1, p.2.getState, p.2.events)) =
      some (0,
        some { filearray := [some "a"], pos := 0, nfiles := 1, origwfmt := 5,
               samples := 60, sample_queue := 0 },
        [.openEv 0 0 "a" true, .writeEv 0 20 true, .writeEv 0 20 true, .writeEv 0 20 true,
         .writeEv 0 20 true, .writeEv 0 20 true, .openEv 0 100 "a" true, .seekEv 100,
         .openEv 0 0 "a" true, .writeEv 0 20 true, .writeEv 0 20 true, .writeEv 0 20 true])) := by
  constructor
  · intro w st hds hge
    have h1 : st.pos ≥ st.nfiles := hge
    by_cases h0 : (0 : Nat) ≥ st.nfiles
    · simp [playbg_seek, hds, World.setState, World.log, if_pos h1, if_pos h0]
    · simp [playbg_seek, hds, World.setState, World.log, if_pos h1, if_neg h0]
  · decide

/-- Witness for C3's wrap-normalization part at a concrete state with
`pos = 2 ≥ nfiles = 1`. -/
theorem playbg_c3_wrap_normalization_witness :
    playbg_seek
        { fs := [("a", [3])], writeFails := false
          chan := { stream := none, writeformat := 5
                    datastore := some (some
                      { filearray := [some "a"], pos := 2, nfiles := 1, origwfmt := 5,
                        samples := 0, sample_queue := 0 })
                    generatorActive := true }
          events := [] } =
      playbg_seek
        (World.setState
          { fs := [("a", [3])], writeFails := false
            chan := { stream := none, writeformat := 5
                      datastore := some (some
                        { filearray := [some "a"], pos := 2, nfiles := 1, origwfmt := 5,
                          samples := 0, sample_queue := 0 })
                      generatorActive := true }
            events := [] }
          { filearray := [some "a"], pos := 0, nfiles := 1, origwfmt := 5,
            samples := 0, sample_queue := 0 }) :=
  playbg_c3_wrap_normalization.1 _ _ rfl (by decide)

end PlayBG

namespace PlayBG

/-- Claim C4: when the entry at the current index is missing (NULL) or
unreadable (open fails), the seek step advances `pos` by one, opens
nothing (the stream stays closed) and returns -1 for that attempt; and
from the advanced position a subsequent read succeeds on the next valid
entry, so playback of subsequent valid entries is not halted. -/
theorem playbg_c4_skip_unreadable :
    (∀ (w : World) (st : PlaybgState), w.chan.datastore = some (some st) →
      st.pos < st.nfiles → st.filearray.getD st.pos none = none →
      playbg_seek w = (-1, { w with chan := { w.chan with
        stream := none,
        datastore := some (some { st with pos := st.pos + 1 }) } })) ∧
    (∀ (w : World) (st : PlaybgState) (name : String), w.chan.datastore = some (some st) →
      st.pos < st.nfiles → st.filearray.getD st.pos none = some name →
      List.lookup name w.fs = none →
      playbg_seek w = (-1, { w with
        chan := { w.chan with
          stream := none,
          datastore := some (some { st with pos := st.pos + 1 }) },
        events := w.events ++ [.openEv st.pos st.samples name false] })) ∧
    (∀ (w : World) (st : PlaybgState) (name : String) (content : FileContent)
        (f : Nat) (rest : List Nat),
      w.chan.datastore = some (some st) → w.chan.stream = none → st.samples = 0 →
      st.pos < st.nfiles → st.filearray.getD st.pos none = some name →
      List.lookup name w.fs = some content → content = f :: rest →
      playbg_readframe w = (some f, { w with
        chan := { w.chan with
          stream := some { name := name, content := content, remaining := rest } },
        events := w.events ++ [.openEv st.pos 0 name true] })) := by
  refine ⟨?_, ?_, ?_⟩
  · intro w st hds hpos hentry
    have hentry' : st.filearray[st.pos]?.getD none = none := by
      simpa [List.getD] using hentry
    have hwrap : ¬ st.pos ≥ st.nfiles := by omega
    simp [playbg_seek, hds, World.setState, World.log, hentry', hwrap]
  · intro w st name hds hpos hentry hlk
    have hentry' : st.filearray[st.pos]?.getD none = some name := by
      simpa [List.getD] using hentry
    have hwrap : ¬ st.pos ≥ st.nfiles := by omega
    simp [playbg_seek, hds, World.setState, World.log, hentry', hwrap, hlk]
  · intro w st name content f rest hds hstream hsmp hpos hentry hlk hcon
    have hentry' : st.filearray[st.pos]?.getD none = some name := by
      simpa [List.getD] using hentry
    have hwrap : ¬ st.pos ≥ st.nfiles := by omega
    simp [playbg_readframe, readCurrent, hstream, playbg_seek, World.setState, World.log,
      hentry', hlk, hsmp, hwrap, ast_readframe, hcon, hds]

/-- Witness for C4 at concrete inputs: a NULL first entry, an unreadable
first entry of a two-entry list, and recovery on the valid second entry. -/
theorem playbg_c4_skip_unreadable_witness :
    playbg_seek
        { fs := [], writeFails := false
          chan := { stream := none, writeformat := 5
                    datastore := some (some
                      { filearray := [none, some "b"], pos := 0, nfiles := 2, origwfmt := 5,
                        samples := 0, sample_queue := 0 })
                    generatorActive := true }
          events := [] } =
      (-1, { fs := [], writeFails := false
             chan := { stream := none, writeformat := 5
                       datastore := some (some
                         { filearray := [none, some "b"], pos := 1, nfiles := 2, origwfmt := 5,
                           samples := 0, sample_queue := 0 })
                       generatorActive := true }
             events := [] }) ∧
    playbg_seek (startedWorld [("b", [7])] 5 [("x", [7]), ("b", [7])]) =
      (-1, { startedWorld [("b", [7])] 5 [("x", [7]), ("b", [7])] with
        chan := { (startedWorld [("b", [7])] 5 [("x", [7]), ("b", [7])]).chan with
          stream := none,
          datastore := some (some
            { filearray := [some "x", some "b"], pos := 1, nfiles := 2, origwfmt := 5,
              samples := 0, sample_queue := 0 }) },
        events := [.openEv 0 0 "x" false] }) ∧
    playbg_readframe
        { fs := [("b", [7])], writeFails := false
          chan := { stream := none, writeformat := 5
                    datastore := some (some
                      { filearray := [some "x", some "b"], pos := 1, nfiles := 2, origwfmt := 5,
                        samples := 0, sample_queue := 0 })
                    generatorActive := true }
          events := [.openEv 0 0 "x" false] } =
      (some 7,
        { fs := [("b", [7])], writeFails := false
          chan := { stream := some { name := "b", content := [7], remaining := [] }
                    writeformat := 5
                    datastore := some (some
                      { filearray := [some "x", some "b"], pos := 1, nfiles := 2, origwfmt := 5,
                        samples := 0, sample_queue := 0 })
                    generatorActive := true }
          events := [.openEv 0 0 "x" false, .openEv 1 0 "b" true] }) := by
  refine ⟨?_, ?_, ?_⟩
  · have h := playbg_c4_skip_unreadable.1
      { fs := [], writeFails := false
        chan := { stream := none, writeformat := 5
                  datastore := some (some
                    { filearray := [none, some "b"], pos := 0, nfiles := 2, origwfmt := 5,
                      samples := 0, sample_queue := 0 })
                  generatorActive := true }
        events := [] } _ rfl (by decide) (by decide)
    exact h
  · have h := playbg_c4_skip_unreadable.2.1 (startedWorld [("b", [7])] 5 [("x", [7]), ("b", [7])])
      _ "x" rfl (by decide) (by decide) (by decide)
    simpa using h
  · have h := playbg_c4_skip_unreadable.2.2
      { fs := [("b", [7])], writeFails := false
        chan := { stream := none, writeformat := 5
                  datastore := some (some
                    { filearray := [some "x", some "b"], pos := 1, nfiles := 2, origwfmt := 5,
                      samples := 0, sample_queue := 0 })
                  generatorActive := true }
        events := [.openEv 0 0 "x" false] } _ "b" [7] 7 [] rfl rfl (by decide) (by decide)
      (by decide) (by decide) (by decide)
    simpa using h

end PlayBG

namespace PlayBG

/-- Claim C5: each generator invocation adds the requested sample count
to `sample_queue` and then, while it stays positive, every frame obtained
from the frame producer adds its sample count to `samples` and subtracts
it from `sample_queue` before the frame is delivered; and whenever the
loop returns without an error (result ≥ 0), `sample_queue` has been
drained to ≤ 0. -/
theorem playbg_c5_sample_accounting :
    (∀ (fuel : Nat) (w : World) (st : PlaybgState) (n : Int),
      w.chan.datastore = some (some st) →
      playbg_generator fuel w n =
        playbg_generator_loop fuel (w.setState { st with sample_queue := st.sample_queue + n })) ∧
    (∀ (fuel : Nat) (w : World) (st : PlaybgState) (f : Nat) (w1 : World) (st1 : PlaybgState),
      w.getState = some st → st.sample_queue > 0 →
      playbg_readframe w = (some f, w1) → w1.getState = some st1 →
      playbg_generator_loop (fuel + 1) w =
        (if w1.writeFails = true then
          some (-1, (w1.setState
            { st1 with
              samples := st1.samples + f, sample_queue := st1.sample_queue - f }).log
            (.writeEv st1.pos f (!w1.writeFails)))
        else playbg_generator_loop fuel
          ((w1.setState
            { st1 with
              samples := st1.samples + f, sample_queue := st1.sample_queue - f }).log
            (.writeEv st1.pos f (!w1.writeFails))))) ∧
    (∀ (fuel : Nat) (w : World) (res : Int) (w' : World) (st' : PlaybgState),
      playbg_generator_loop fuel w = some (res, w') → 0 ≤ res →
      w'.getState = some st' → st'.sample_queue ≤ 0) := by
  refine ⟨?_, ?_, ?_⟩
  · intro fuel w st n hds
    simp [playbg_generator, hds]
  · intro fuel w st f w1 st1 hst hq hrf hst1
    simp only [playbg_generator_loop, hst, if_pos hq, hrf, hst1, World.setState, World.log]
  · intro fuel
    induction fuel with
    | zero => intro w res w' st' h; simp [playbg_generator_loop] at h
    | succ fuel ih =>
      intro w res w' st' h hres hst'
      rw [playbg_generator_loop] at h
      cases hst : w.getState with
      | none =>
        rw [hst] at h
        simp only [Option.some.injEq, Prod.mk.injEq] at h
        omega
      | some st =>
        rw [hst] at h
        simp only at h
        by_cases hq : st.sample_queue > 0
        · rw [if_pos hq] at h
          cases hrf : playbg_readframe w with
          | mk fo w1 =>
            rw [hrf] at h
            cases fo with
            | none =>
              simp only [Option.some.injEq, Prod.mk.injEq] at h
              omega
            | some f =>
              simp only at h
              cases hst1 : w1.getState with
              | none =>
                rw [hst1] at h
                simp only [Option.some.injEq, Prod.mk.injEq] at h
                omega
              | some st1 =>
                rw [hst1] at h
                simp only at h
                
                by_cases hwf : ((w1.setState
                    { st1 with
                      samples := st1.samples + f,
                      sample_queue := st1.sample_queue - f }).log
                    (.writeEv st1.pos f (!(w1.setState
                      { st1 with
                        samples := st1.samples + f,
                        sample_queue := st1.sample_queue - f }).writeFails))).writeFails = true
                · rw [if_pos hwf] at h
                  simp only [Option.some.injEq, Prod.mk.injEq] at h
                  omega
                · rw [if_neg hwf] at h
                  exact ih _ res w' st' h hres hst'
        · rw [if_neg hq] at h
          simp only [Option.some.injEq, Prod.mk.injEq] at h
          obtain ⟨h1, h2⟩ := h
          subst h2
          rw [hst] at hst'
          have heq : st = st' := by injection hst'
          subst heq
          omega

end PlayBG

namespace PlayBG

/-- Witness for C5 at concrete inputs: the queue-accumulation equation, a
single loop step on a 4-sample frame against a 3-sample backlog, and a
drained loop exit. -/
theorem playbg_c5_sample_accounting_witness :
    (playbg_generator 2 (startedWorld [("a", [4])] 5 [("a", [4])]) 4 =
      playbg_generator_loop 2 ((startedWorld [("a", [4])] 5 [("a", [4])]).setState
        { filearray := [some "a"], pos := 0, nfiles := 1, origwfmt := 5,
          samples := 0, sample_queue := 0 + 4 })) ∧
    (playbg_generator_loop 2
        { fs := [("a", [4])], writeFails := false
          chan := { stream := some { name := "a", content := [4], remaining := [4] }
                    writeformat := 5
                    datastore := some (some
                      { filearray := [some "a"], pos := 0, nfiles := 1, origwfmt := 5,
                        samples := 0, sample_queue := 3 })
                    generatorActive := true }
          events := [] } =
      playbg_generator_loop 1
        { fs := [("a", [4])], writeFails := false
          chan := { stream := some { name := "a", content := [4], remaining := [] }
                    writeformat := 5
                    datastore := some (some
                      { filearray := [some "a"], pos := 0, nfiles := 1, origwfmt := 5,
                        samples := 4, sample_queue := -1 })
                    generatorActive := true }
          events := [.writeEv 0 4 true] }) ∧
    ((0 : Int) ≤ 0) := by
  refine ⟨?_, ?_, ?_⟩
  · exact playbg_c5_sample_accounting.1 2 (startedWorld [("a", [4])] 5 [("a", [4])]) _ 4 rfl
  · have h := playbg_c5_sample_accounting.2.1 1
      { fs := [("a", [4])], writeFails := false
        chan := { stream := some { name := "a", content := [4], remaining := [4] }
                  writeformat := 5
                  datastore := some (some
                    { filearray := [some "a"], pos := 0, nfiles := 1, origwfmt := 5,
                      samples := 0, sample_queue := 3 })
                  generatorActive := true }
        events := [] }
      { filearray := [some "a"], pos := 0, nfiles := 1, origwfmt := 5,
        samples := 0, sample_queue := 3 }
      4
      { fs := [("a", [4])], writeFails := false
        chan := { stream := some { name := "a", content := [4], remaining := [] }
                  writeformat := 5
                  datastore := some (some
                    { filearray := [some "a"], pos := 0, nfiles := 1, origwfmt := 5,
                      samples := 0, sample_queue := 3 })
                  generatorActive := true }
        events := [] }
      { filearray := [some "a"], pos := 0, nfiles := 1, origwfmt := 5,
        samples := 0, sample_queue := 3 }
      rfl (by decide) (by decide) rfl
    simpa using h
  · exact playbg_c5_sample_accounting.2.2 1
      ({ fs := [], writeFails := false
         chan := { stream := none, writeformat := 5
                   datastore := some (some
                     { filearray := [some "a"], pos := 0, nfiles := 1, origwfmt := 5,
                       samples := 0, sample_queue := 0 })
                   generatorActive := true }
         events := [] })
      0
      ({ fs := [], writeFails := false
         chan := { stream := none, writeformat := 5
                   datastore := some (some
                     { filearray := [some "a"], pos := 0, nfiles := 1, origwfmt := 5,
                       samples := 0, sample_queue := 0 })
                   generatorActive := true }
         events := [] })
      { filearray := [some "a"], pos := 0, nfiles := 1, origwfmt := 5,
        samples := 0, sample_queue := 0 }
      (by decide) (by decide) rfl

/-- Claim C6: a generator invocation aborts with -1 when writing a
produced frame to the channel fails (the failed delivery is recorded), and
aborts with -1 (end of playback) when the frame producer yields no frame;
for a single-entry list whose entry is unreadable, every generator
invocation fails with -1 after the two-attempt retry (exactly two failed
open attempts are recorded per invocation). -/
theorem playbg_c6_generator_errors :
    (∀ (fuel : Nat) (w : World) (st : PlaybgState) (f : Nat) (w1 : World) (st1 : PlaybgState),
      w.getState = some st → st.sample_queue > 0 →
      playbg_readframe w = (some f, w1) → w1.getState = some st1 →
      w1.writeFails = true →
      playbg_generator_loop (fuel + 1) w =
        some (-1, (w1.setState
          { st1 with
            samples := st1.samples + f, sample_queue := st1.sample_queue - f }).log
          (.writeEv st1.pos f false))) ∧
    (∀ (fuel : Nat) (w : World) (st : PlaybgState) (w1 : World),
      w.getState = some st → st.sample_queue > 0 →
      playbg_readframe w = (none, w1) →
      playbg_generator_loop (fuel + 1) w = some (-1, w1)) ∧
    (∀ (fuel : Nat) (reqs : List Int) (w : World) (nm : String) (owf : Int) (p : Nat) (q : Int),
      (∀ n ∈ reqs, 0 < n) →
      w.chan.datastore = some (some
        { filearray := [some nm], pos := p, nfiles := 1, origwfmt := owf,
          samples := 0, sample_queue := q }) →
      w.chan.stream = none → List.lookup nm w.fs = none → p ≤ 1 → 0 ≤ q →
      ∃ W : World,
        runBursts (fuel + 1) reqs w = some (reqs.map (fun _ => (-1 : Int)), W) ∧
        W.events = w.events ++ List.replicate (2 * reqs.length) (.openEv 0 0 nm false)) := by
  refine ⟨?_, ?_, ?_⟩
  · intro fuel w st f w1 st1 hst hq hrf hst1 hwf
    simp only [playbg_generator_loop, hst, if_pos hq, hrf, hst1, World.setState, World.log]
    simp [hwf]
  · intro fuel w st w1 hst hq hrf
    simp only [playbg_generator_loop, hst, if_pos hq, hrf]
  · intro fuel reqs w nm owf p q hpos hds hstream hlk hp hq
    exact bad_single_runs reqs fuel w nm owf p q hpos hds hstream hlk hp hq

/-- Witness for C6 at concrete inputs: a failing write, a producer that
yields nothing, and two invocations against a single unreadable entry. -/
theorem playbg_c6_generator_errors_witness :
    (playbg_generator_loop 1
        { fs := [("a", [4])], writeFails := true
          chan := { stream := some { name := "a", content := [4], remaining := [4] }
                    writeformat := 5
                    datastore := some (some
                      { filearray := [some "a"], pos := 0, nfiles := 1, origwfmt := 5,
                        samples := 0, sample_queue := 3 })
                    generatorActive := true }
          events := [] } =
      some (-1,
        { fs := [("a", [4])], writeFails := true
          chan := { stream := some { name := "a", content := [4], remaining := [] }
                    writeformat := 5
                    datastore := some (some
                      { filearray := [some "a"], pos := 0, nfiles := 1, origwfmt := 5,
                        samples := 4, sample_queue := -1 })
                    generatorActive := true }
          events := [.writeEv 0 4 false] })) ∧
    (playbg_generator_loop 1
        { fs := [], writeFails := false
          chan := { stream := none, writeformat := 5
                    datastore := some (some
                      { filearray := [some "x"], pos := 0, nfiles := 1, origwfmt := 5,
                        samples := 0, sample_queue := 3 })
                    generatorActive := true }
          events := [] } =
      some (-1,
        { fs := [], writeFails := false
          chan := { stream := none, writeformat := 5
                    datastore := some (some
                      { filearray := [some "x"], pos := 1, nfiles := 1, origwfmt := 5,
                        samples := 0, sample_queue := 3 })
                    generatorActive := true }
          events := [.openEv 0 0 "x" false, .openEv 0 0 "x" false] })) ∧
    (∃ W : World,
      runBursts 1 [160, 320] (playbg_start (initWorld [] 5) "bad").2 =
        some ([-1, -1], W) ∧
      W.events = (playbg_start (initWorld [] 5) "bad").2.events ++
        List.replicate 4 (.openEv 0 0 "bad" false)) := by
  refine ⟨?_, ?_, ?_⟩
  · have h := playbg_c6_generator_errors.1 0
      { fs := [("a", [4])], writeFails := true
        chan := { stream := some { name := "a", content := [4], remaining := [4] }
                  writeformat := 5
                  datastore := some (some
                    { filearray := [some "a"], pos := 0, nfiles := 1, origwfmt := 5,
                      samples := 0, sample_queue := 3 })
                  generatorActive := true }
        events := [] }
      { filearray := [some "a"], pos := 0, nfiles := 1, origwfmt := 5,
        samples := 0, sample_queue := 3 }
      4
      { fs := [("a", [4])], writeFails := true
        chan := { stream := some { name := "a", content := [4], remaining := [] }
                  writeformat := 5
                  datastore := some (some
                    { filearray := [some "a"], pos := 0, nfiles := 1, origwfmt := 5,
                      samples := 0, sample_queue := 3 })
                  generatorActive := true }
        events := [] }
      { filearray := [some "a"], pos := 0, nfiles := 1, origwfmt := 5,
        samples := 0, sample_queue := 3 }
      rfl (by decide) (by decide) rfl rfl
    simpa using h
  · have h := playbg_c6_generator_errors.2.1 0
      { fs := [], writeFails := false
        chan := { stream := none, writeformat := 5
                  datastore := some (some
                    { filearray := [some "x"], pos := 0, nfiles := 1, origwfmt := 5,
                      samples := 0, sample_queue := 3 })
                  generatorActive := true }
        events := [] }
      { filearray := [some "x"], pos := 0, nfiles := 1, origwfmt := 5,
        samples := 0, sample_queue := 3 }
      { fs := [], writeFails := false
        chan := { stream := none, writeformat := 5
                  datastore := some (some
                    { filearray := [some "x"], pos := 1, nfiles := 1, origwfmt := 5,
                      samples := 0, sample_queue := 3 })
                  generatorActive := true }
        events := [.openEv 0 0 "x" false, .openEv 0 0 "x" false] }
      rfl (by decide) (by decide)
    exact h
  · have h := playbg_c6_generator_errors.2.2 0 [160, 320]
      (playbg_start (initWorld [] 5) "bad").2 "bad" 5 0 0
      (by decide) (by decide) (by decide) (by decide) (by decide) (by decide)
    simpa using h

end PlayBG

namespace PlayBG

/-- Claim C7: Start on a specification of names joined by `&` installs a
state whose `filearray` is the split in left-to-right order with
`pos = 0`, `samples = 0`, `sample_queue = 0` and the captured write
format; a specification without the delimiter yields a single-element
list; splitting a `&`-join of `&`-free names returns exactly those names
in order; and a NULL or empty specification is rejected with -1, leaving
the world unchanged. -/
theorem playbg_c7_start_parsing :
    (∀ w : World, playbg_exec_start w none = (-1, w)) ∧
    (∀ w : World, playbg_exec_start w (some "") = (-1, w)) ∧
    (∀ (w : World) (opts : String), opts ≠ "" →
      (playbg_start w opts).1 = 0 ∧
      (playbg_start w opts).2.getState = some
        { filearray := (parseFiles opts).map some, pos := 0
          nfiles := (parseFiles opts).length, origwfmt := w.chan.writeformat
          samples := 0, sample_queue := 0 }) ∧
    (∀ (w : World) (opts : String), opts ≠ "" → ¬ '&' ∈ opts.data →
      (playbg_start w opts).2.getState = some
        { filearray := [some opts], pos := 0, nfiles := 1
          origwfmt := w.chan.writeformat, samples := 0, sample_queue := 0 }) ∧
    (∀ (n : String) (ns : List String), (∀ m ∈ n :: ns, '&' ∉ m.data) →
      parseFiles (joinAmp (n :: ns)) = n :: ns) := by
  have main : ∀ (w : World) (opts : String), opts ≠ "" →
      (playbg_start w opts).1 = 0 ∧
      (playbg_start w opts).2.getState = some
        { filearray := (parseFiles opts).map some, pos := 0
          nfiles := (parseFiles opts).length, origwfmt := w.chan.writeformat
          samples := 0, sample_queue := 0 } := by
    intro w opts hne
    have hn : ¬ ((parseFiles opts).length < 1) := by
      have h := parseFiles_ne_nil opts
      cases hp : parseFiles opts with
      | nil => exact absurd hp h
      | cons a l => simp [hp]
    unfold playbg_start
    rw [if_neg hne, if_neg hn]
    cases hds : w.chan.datastore with
    | none =>
      simp [hds, ast_activate_generator, playbg_alloc, World.setState, World.getState]
    | some o =>
      simp only [hds]
      unfold ast_deactivate_generator playbg_release
      split
      · simp [ast_activate_generator, playbg_alloc, World.setState, World.getState]
      · simp [ast_activate_generator, playbg_alloc, World.setState, World.getState]
  refine ⟨fun w => rfl, fun w => rfl, main, ?_, parseFiles_joinAmp⟩
  intro w opts hne hamp
  have hp : parseFiles opts = [opts] := by
    rw [parseFiles, if_neg hamp]
  have h := (main w opts hne).2
  rw [hp] at h
  simpa using h

/-- Witness for C7 at concrete inputs, including the three-name
specification string. -/
theorem playbg_c7_start_parsing_witness :
    playbg_exec_start (initWorld [] 5) none = (-1, initWorld [] 5) ∧
    playbg_exec_start (initWorld [] 5) (some "") = (-1, initWorld [] 5) ∧
    ((playbg_start (initWorld [] 5) "a&b&c").1 = 0 ∧
     (playbg_start (initWorld [] 5) "a&b&c").2.getState = some
       { filearray := (parseFiles "a&b&c").map some, pos := 0
         nfiles := (parseFiles "a&b&c").length, origwfmt := 5
         samples := 0, sample_queue := 0 }) ∧
    (playbg_start (initWorld [] 5) "abc").2.getState = some
      { filearray := [some "abc"], pos := 0, nfiles := 1
        origwfmt := 5, samples := 0, sample_queue := 0 } ∧
    parseFiles (joinAmp ["a", "b", "c"]) = ["a", "b", "c"] :=
  ⟨playbg_c7_start_parsing.1 (initWorld [] 5),
   playbg_c7_start_parsing.2.1 (initWorld [] 5),
   playbg_c7_start_parsing.2.2.1 (initWorld [] 5) "a&b&c" (by decide),
   playbg_c7_start_parsing.2.2.2.1 (initWorld [] 5) "abc" (by decide) (by decide),
   playbg_c7_start_parsing.2.2.2.2 "a" ["b", "c"] (by decide)⟩

/-- Claim C8: Stop with no attachment present returns success (0) and
leaves the world unchanged (a warning-only no-op), and stopping twice in
a row equals stopping once: the second call changes no state. -/
theorem playbg_c8_stop_idempotent :
    (∀ w : World, w.chan.datastore = none → playbg_exec_stop w = (0, w)) ∧
    (∀ w : World, playbg_stop (playbg_stop w) = playbg_stop w) := by
  constructor
  · intro w h
    simp [playbg_exec_stop, playbg_stop, h]
  · intro w
    match hds : w.chan.datastore with
    | none => simp [playbg_stop, hds]
    | some none => simp [playbg_stop, hds]
    | some (some st) =>
      have h1 : (playbg_stop w).chan.datastore = none := by
        simp [playbg_stop, hds, ast_deactivate_generator, playbg_release]
        split <;> simp
      conv in playbg_stop (playbg_stop w) => rw [playbg_stop]
      simp [h1]

/-- Witness for C8 on a channel without an attachment and on a freshly
started channel. -/
theorem playbg_c8_stop_idempotent_witness :
    playbg_exec_stop (initWorld [] 5) = (0, initWorld [] 5) ∧
    playbg_stop (playbg_stop (startedWorld [("a", [4])] 5 [("a", [4])])) =
      playbg_stop (startedWorld [("a", [4])] 5 [("a", [4])]) :=
  ⟨playbg_c8_stop_idempotent.1 (initWorld [] 5) rfl,
   playbg_c8_stop_idempotent.2 (startedWorld [("a", [4])] 5 [("a", [4])])⟩

/-- Claim C9: the release hook closes any open stream and restores the
captured original write format on the channel, but never destroys the
attached state: the datastore still holds the identical `playbg_state`
(files, index, offset unchanged) after a release. -/
theorem playbg_c9_release_preserves (w : World) (st : PlaybgState)
    (hds : w.chan.datastore = some (some st)) (hfmt : st.origwfmt ≠ 0) :
    playbg_release w =
      { w with chan := { w.chan with stream := none, writeformat := st.origwfmt } } ∧
    (playbg_release w).getState = some st := by
  have h : playbg_release w =
      { w with chan := { w.chan with stream := none, writeformat := st.origwfmt } } := by
    simp [playbg_release, hds, hfmt]
  exact ⟨h, by simp [h, World.getState, hds]⟩

/-- Witness for C9 on a channel with an open stream and captured format 5. -/
theorem playbg_c9_release_preserves_witness :
    playbg_release
        { fs := [("a", [4])], writeFails := false
          chan := { stream := some { name := "a", content := [4], remaining := [] }
                    writeformat := 9
                    datastore := some (some
                      { filearray := [some "a"], pos := 0, nfiles := 1, origwfmt := 5,
                        samples := 4, sample_queue := 0 })
                    generatorActive := true }
          events := [] } =
      { fs := [("a", [4])], writeFails := false
        chan := { stream := none, writeformat := 5
                  datastore := some (some
                    { filearray := [some "a"], pos := 0, nfiles := 1, origwfmt := 5,
                      samples := 4, sample_queue := 0 })
                  generatorActive := true }
        events := [] } ∧
    (playbg_release
        { fs := [("a", [4])], writeFails := false
          chan := { stream := some { name := "a", content := [4], remaining := [] }
                    writeformat := 9
                    datastore := some (some
                      { filearray := [some "a"], pos := 0, nfiles := 1, origwfmt := 5,
                        samples := 4, sample_queue := 0 })
                    generatorActive := true }
          events := [] }).getState = some
      { filearray := [some "a"], pos := 0, nfiles := 1, origwfmt := 5,
        samples := 4, sample_queue := 0 } := by
  have h := playbg_c9_release_preserves
    { fs := [("a", [4])], writeFails := false
      chan := { stream := some { name := "a", content := [4], remaining := [] }
                writeformat := 9
                datastore := some (some
                  { filearray := [some "a"], pos := 0, nfiles := 1, origwfmt := 5,
                    samples := 4, sample_queue := 0 })
                generatorActive := true }
      events := [] }
    { filearray := [some "a"], pos := 0, nfiles := 1, origwfmt := 5,
      samples := 4, sample_queue := 0 }
    rfl (by decide)
  exact ⟨h.1, h.2⟩

/-- Claim C10: the generator's alloc hook captures the channel's current
write format into `origwfmt`; the release hook restores the write format
only when the captured value is nonzero, and leaves the channel's write
format unchanged when the captured value is 0. -/
theorem playbg_c10_release_format_conditional (w : World) (st : PlaybgState)
    (hds : w.chan.datastore = some (some st)) :
    (playbg_alloc w).1 = some { st with origwfmt := w.chan.writeformat } ∧
    (st.origwfmt = 0 →
      playbg_release w = { w with chan := { w.chan with stream := none } }) ∧
    (st.origwfmt ≠ 0 → (playbg_release w).chan.writeformat = st.origwfmt) := by
  refine ⟨by simp [playbg_alloc, hds], ?_, ?_⟩
  · intro h0
    simp [playbg_release, hds, h0]
  · intro h0
    simp [playbg_release, hds, h0]

/-- Witness for C10 with captured formats 0 and 7. -/
theorem playbg_c10_release_format_conditional_witness :
    ((playbg_alloc
        { fs := [], writeFails := false
          chan := { stream := none, writeformat := 9
                    datastore := some (some
                      { filearray := [some "a"], pos := 0, nfiles := 1, origwfmt := 0,
                        samples := 0, sample_queue := 0 })
                    generatorActive := true }
          events := [] }).1 = some
      { filearray := [some "a"], pos := 0, nfiles := 1, origwfmt := 9,
        samples := 0, sample_queue := 0 }) ∧
    (playbg_release
        { fs := [], writeFails := false
          chan := { stream := none, writeformat := 9
                    datastore := some (some
                      { filearray := [some "a"], pos := 0, nfiles := 1, origwfmt := 0,
                        samples := 0, sample_queue := 0 })
                    generatorActive := true }
          events := [] } =
      { fs := [], writeFails := false
        chan := { stream := none, writeformat := 9
                  datastore := some (some
                    { filearray := [some "a"], pos := 0, nfiles := 1, origwfmt := 0,
                      samples := 0, sample_queue := 0 })
                  generatorActive := true }
        events := [] }) ∧
    ((playbg_release
        { fs := [], writeFails := false
          chan := { stream := none, writeformat := 9
                    datastore := some (some
                      { filearray := [some "a"], pos := 0, nfiles := 1, origwfmt := 7,
                        samples := 0, sample_queue := 0 })
                    generatorActive := true }
          events := [] }).chan.writeformat = 7) := by
  have h0 := playbg_c10_release_format_conditional
    { fs := [], writeFails := false
      chan := { stream := none, writeformat := 9
                datastore := some (some
                  { filearray := [some "a"], pos := 0, nfiles := 1, origwfmt := 0,
                    samples := 0, sample_queue := 0 })
                generatorActive := true }
      events := [] }
    { filearray := [some "a"], pos := 0, nfiles := 1, origwfmt := 0,
      samples := 0, sample_queue := 0 }
    rfl
  have h7 := playbg_c10_release_format_conditional
    { fs := [], writeFails := false
      chan := { stream := none, writeformat := 9
                datastore := some (some
                  { filearray := [some "a"], pos := 0, nfiles := 1, origwfmt := 7,
                    samples := 0, sample_queue := 0 })
                generatorActive := true }
      events := [] }
    { filearray := [some "a"], pos := 0, nfiles := 1, origwfmt := 7,
      samples := 0, sample_queue := 0 }
    rfl
  refine ⟨h0.1, by simpa using h0.2.1 rfl, h7.2.2 (by decide)⟩

end PlayBG

namespace PlayBG

/-- Counterexample to claim C1 as stated: Start("a&b") with two 160-sample
resources followed by N = 2 generator invocations, each requesting one
resource's full duration, visits index 0 then 1 only — the index never
returns to 0 within the N invocations (final `pos` is 1), so the claimed
visit sequence 0,1,0 (`List.range 2 ++ [0]`) does not occur. -/
theorem playbg_c1_counterexample :
    (playbg_start (initWorld [("a", [160]), ("b", [160])] 5) "a&b").1 = 0 ∧
    (runBursts 3 [(160 : Int), 160]
        (playbg_start (initWorld [("a", [160]), ("b", [160])] 5) "a&b").2).map
        (fun p => (p.1, playedIndices p.2.events, p.2.getState.map PlaybgState.pos)) =
      some ([0, 0], [0, 1], some 1) ∧
    ¬ ([0, 1] : List Nat) = List.range 2 ++ [0] :=
  ⟨by decide, by decide, by decide⟩

/-- Claim C1 (amended): for every valid specification with N ≥ 1
resources, Start installs the parsed zeroed state, and Start followed
immediately by N + 1 generator invocations — each requesting exactly the
full duration in samples of the resource it consumes — makes the playback
index visit 0, 1, ..., N-1, 0 in that order (the indices at which
resources are opened from their start), ending with `pos = 0`
(wraparound). The code needs N + 1 invocations, not N: after N
invocations the index rests at N-1 and the wrap to 0 happens only on the
next request. -/
theorem playbg_c1_wraparound_succ_bursts
    (fs : List (String × FileContent)) (wf : Int)
    (p0 : String × FileContent) (rest : List (String × FileContent)) (fuel : Nat)
    (hamp : ∀ p ∈ p0 :: rest, '&' ∉ p.1.data)
    (hjoin : joinAmp ((p0 :: rest).map (fun p => p.1)) ≠ "")
    (hlk : ∀ p ∈ p0 :: rest, List.lookup p.1 fs = some p.2)
    (hposall : ∀ p ∈ p0 :: rest, ∀ g ∈ p.2, 0 < g)
    (hneall : ∀ p ∈ p0 :: rest, p.2 ≠ [])
    (hfuel : ∀ p ∈ p0 :: rest, p.2.length + 1 ≤ fuel) :
    playbg_start (initWorld fs wf) (joinAmp ((p0 :: rest).map (fun p => p.1))) =
      (0, startedWorld fs wf (p0 :: rest)) ∧
    ∃ W : World,
      runBursts fuel (((p0 :: rest).map fun p => ((p.2.sum : Nat) : Int)) ++
          [((p0.2.sum : Nat) : Int)]) (startedWorld fs wf (p0 :: rest)) =
        some ((((p0 :: rest).map fun _ => (0 : Int))) ++ [(0 : Int)], W) ∧
      playedIndices W.events = List.range (p0 :: rest).length ++ [(0 : Nat)] ∧
      ∃ stW : PlaybgState, W.getState = some stW ∧ stW.pos = 0 ∧ stW.samples = p0.2.sum :=
  ⟨start_joined fs wf p0 rest hamp hjoin,
   runBursts_wraparound fs wf p0 rest fuel hlk hposall hneall hfuel⟩

/-- Witness for amended C1 at the concrete two-resource specification
"a&b" with 160-sample files and three invocations. -/
theorem playbg_c1_wraparound_succ_bursts_witness :
    playbg_start (initWorld [("a", [160]), ("b", [160])] 5) "a&b" =
      (0, startedWorld [("a", [160]), ("b", [160])] 5 [("a", [160]), ("b", [160])]) ∧
    ∃ W : World,
      runBursts 3 [(160 : Int), 160, 160]
          (startedWorld [("a", [160]), ("b", [160])] 5 [("a", [160]), ("b", [160])]) =
        some ([0, 0, 0], W) ∧
      playedIndices W.events = [0, 1, 0] ∧
      ∃ stW : PlaybgState, W.getState = some stW ∧ stW.pos = 0 ∧ stW.samples = 160 := by
  obtain ⟨hstart, W, hrun, hplay, stW, hst, hpos, hsmp⟩ :=
    playbg_c1_wraparound_succ_bursts [("a", [160]), ("b", [160])] 5 ("a", [160]) [("b", [160])]
      3 (by decide) (by decide) (by decide) (by decide) (by decide) (by decide)
  refine ⟨by simpa using hstart, W, by simpa using hrun, by simpa using hplay,
    stW, hst, hpos, by simpa using hsmp⟩

end PlayBG
